import Mathlib

/-!
Shallow embedding of the cloud-native EO workshop pipeline
(`auspatious/cloud-native-geospatial-eo-workshop`).

The notebooks implement a pixel-wise pipeline over float rasters:
quality masking from bit-encoded quality codes, reflectance scaling,
EVI / EVI2 vegetation indices, and NaN-skipping temporal/spatial
reductions (max, median, mean).

Numeric model: raster cells are modelled by `FVal`, exact rational
numbers extended with the IEEE-754 special values NaN and plus/minus
infinity.  Arithmetic follows IEEE-754 special-value propagation
(NaN propagates; x/0 with x positive gives +inf; 0/0 gives NaN), with
exact rational arithmetic in place of rounded binary floating point.
Signed zero is not modelled; the sums that reach a zero denominator
here produce +0 in IEEE round-to-nearest, so division by such a zero
follows the +0 rule.  Quality codes are arbitrary integers (`ℤ`) and
the bitwise AND of the source is `Int.land`.
-/

/-- Raster cell value: NaN, +infinity, -infinity, or an exact rational. -/
inductive FVal : Type where
  | nan : FVal
  | inf : FVal
  | ninf : FVal
  | num : ℚ → FVal
deriving DecidableEq

/-- IEEE negation on `FVal`. -/
def fneg : FVal → FVal
  | FVal.nan => FVal.nan
  | FVal.inf => FVal.ninf
  | FVal.ninf => FVal.inf
  | FVal.num q => FVal.num (-q)

/-- IEEE addition on `FVal`: NaN propagates, inf + (-inf) is NaN. -/
def fadd : FVal → FVal → FVal
  | FVal.nan, _ => FVal.nan
  | _, FVal.nan => FVal.nan
  | FVal.inf, FVal.ninf => FVal.nan
  | FVal.ninf, FVal.inf => FVal.nan
  | FVal.inf, _ => FVal.inf
  | _, FVal.inf => FVal.inf
  | FVal.ninf, _ => FVal.ninf
  | _, FVal.ninf => FVal.ninf
  | FVal.num a, FVal.num b => FVal.num (a + b)

/-- IEEE subtraction on `FVal`, defined as addition of the negation. -/
def fsub (a b : FVal) : FVal := fadd a (fneg b)

/-- IEEE multiplication on `FVal`: NaN propagates, 0 * inf is NaN. -/
def fmul : FVal → FVal → FVal
  | FVal.nan, _ => FVal.nan
  | _, FVal.nan => FVal.nan
  | FVal.inf, FVal.inf => FVal.inf
  | FVal.inf, FVal.ninf => FVal.ninf
  | FVal.ninf, FVal.inf => FVal.ninf
  | FVal.ninf, FVal.ninf => FVal.inf
  | FVal.inf, FVal.num b =>
      if 0 < b then FVal.inf else if b < 0 then FVal.ninf else FVal.nan
  | FVal.num a, FVal.inf =>
      if 0 < a then FVal.inf else if a < 0 then FVal.ninf else FVal.nan
  | FVal.ninf, FVal.num b =>
      if 0 < b then FVal.ninf else if b < 0 then FVal.inf else FVal.nan
  | FVal.num a, FVal.ninf =>
      if 0 < a then FVal.ninf else if a < 0 then FVal.inf else FVal.nan
  | FVal.num a, FVal.num b => FVal.num (a * b)

/-- IEEE division on `FVal`: NaN propagates, nonzero/0 is a signed
infinity (denominator treated as +0), 0/0 is NaN, finite/inf is 0. -/
def fdiv : FVal → FVal → FVal
  | FVal.nan, _ => FVal.nan
  | _, FVal.nan => FVal.nan
  | FVal.inf, FVal.inf => FVal.nan
  | FVal.inf, FVal.ninf => FVal.nan
  | FVal.ninf, FVal.inf => FVal.nan
  | FVal.ninf, FVal.ninf => FVal.nan
  | FVal.inf, FVal.num b => if b < 0 then FVal.ninf else FVal.inf
  | FVal.ninf, FVal.num b => if b < 0 then FVal.inf else FVal.ninf
  | FVal.num _, FVal.inf => FVal.num 0
  | FVal.num _, FVal.ninf => FVal.num 0
  | FVal.num a, FVal.num b =>
      if b = 0 then
        if a = 0 then FVal.nan
        else if 0 < a then FVal.inf else FVal.ninf
      else FVal.num (a / b)

/-- IEEE comparison `v > 0` as a Boolean (false on NaN). -/
def fgt0 : FVal → Bool
  | FVal.nan => false
  | FVal.inf => true
  | FVal.ninf => false
  | FVal.num q => decide (0 < q)

/-- IEEE comparison `v == 0` as a Boolean (false on NaN). -/
def feq0 : FVal → Bool
  | FVal.num q => decide (q = 0)
  | _ => false

/-- Numpy `clip(v, lo, hi)` = `minimum(maximum(v, lo), hi)`;
NaN propagates, infinities clamp to the bounds. -/
def fclip (v : FVal) (lo hi : ℚ) : FVal :=
  match v with
  | FVal.nan => FVal.nan
  | FVal.inf => FVal.num hi
  | FVal.ninf => FVal.num lo
  | FVal.num q => FVal.num (min hi (max lo q))

/-- True exactly on NaN cells (numpy reductions skip these). -/
def isnan : FVal → Bool
  | FVal.nan => true
  | _ => false

/-- Total comparison used to order non-NaN cells
(`-inf` below every value, `+inf` above; NaN cells are filtered out
before this is used, the NaN rows are arbitrary). -/
def fle : FVal → FVal → Bool
  | FVal.nan, _ => true
  | _, FVal.nan => true
  | FVal.ninf, _ => true
  | _, FVal.inf => true
  | FVal.inf, _ => false
  | _, FVal.ninf => false
  | FVal.num a, FVal.num b => decide (a ≤ b)

/-!
Quality Mask Builder.

`apply_quality_mask` (HLS notebooks) builds, per element of the
`fmask` quality band:
  `pq_mask    = (fmask & 0b00001110) != 0`
  `nodata_mask = fmask == nodata`
  `mask       = pq_mask | nodata_mask`
and replaces masked cells of every variable with NaN; the result of
the subsequent `masked.drop_vars(["fmask"])` call is discarded.
`mask_landsat_clouds` (Landsat notebook) masks only on
`(qa_pixel & 0b00011000) != 0`, with no nodata check.
-/

/-- Per-element quality mask with the bitmask and sentinel taken as
parameters (the source fixes the bitmask to `0b00001110` and reads the
sentinel from the raster metadata): `(code & pqBin) != 0 or code == nodata`. -/
def apply_quality_mask_elem (pqBin nodata code : ℤ) : Bool :=
  decide (Int.land code pqBin ≠ 0) || decide (code = nodata)

/-- Mask raster of `apply_quality_mask`: `pq_mask` and `nodata_mask`
computed over the whole `fmask` band and combined with elementwise OR,
with the source's fixed bitmask `0b00001110 = 14`. -/
def hls_mask (nodata : ℤ) (fmask : List ℤ) : List Bool :=
  let pq_mask := fmask.map (fun c => decide (Int.land c 14 ≠ 0))
  let nodata_mask := fmask.map (fun c => decide (c = nodata))
  List.zipWith (fun a b => a || b) pq_mask nodata_mask

/-- Per-element cloud mask of `mask_landsat_clouds`:
`(qa_pixel & 0b00011000) != 0`, i.e. bit 3 (cloud) or bit 4 (shadow);
there is no sentinel / nodata check in the source. -/
def mask_landsat_clouds_elem (code : ℤ) : Bool :=
  decide (Int.land code 24 ≠ 0)

/-- Elementwise `data.where(~mask, other=np.nan)`: masked cells become
NaN, unmasked integer cells are carried over as numbers. -/
def where_not_mask (mask : List Bool) (band : List ℤ) : List FVal :=
  List.zipWith (fun m x => if m then FVal.nan else FVal.num (x : ℚ)) mask band

/-- `xarray.Dataset.drop_vars(names)`: a new dataset without the named
variables (pure; the source discards its result). -/
def drop_vars (names : List String) (d : List (String × List FVal)) :
    List (String × List FVal) :=
  d.filter (fun p => ¬ names.contains p.1)

/-- Dataset-level `apply_quality_mask`: a dataset is an association
list of variable names to bands; the mask is built from the `fmask`
variable and applied to every variable (`fmask` included); the
`drop_vars` result is discarded, exactly as in the source. -/
def apply_quality_mask (nodata : ℤ) (d : List (String × List ℤ)) :
    List (String × List FVal) :=
  let fmask := ((d.lookup "fmask").getD [])
  let mask := hls_mask nodata fmask
  let masked := d.map (fun p => (p.1, where_not_mask mask p.2))
  let _dropped := drop_vars ["fmask"] masked
  masked

/-!
Index Calculator.

HLS `scale_offset`: `band * 0.0001`, then keep only cells `> 0`
(others become NaN).  Landsat `scale_offset`: cells equal to 0 are
nodata; `band * 0.0000275 + -0.2`, clipped to [0, 1], then nodata
cells become NaN.  `calculate_evi2` (two-band) and `calculate_evi`
(three-band) apply the formulas to the scaled bands.
-/

/-- HLS `scale_offset`: scale by 0.0001 and keep only values `> 0`. -/
def scale_offset (band : FVal) : FVal :=
  let b := fmul band (FVal.num (1 / 10000))
  if fgt0 b then b else FVal.nan

/-- Landsat `scale_offset`: `nodata = band == 0`;
`band * 0.0000275 + -0.2`; `clip(0, 1)`; nodata cells become NaN. -/
def scale_offset_landsat (band : FVal) : FVal :=
  let nodata := feq0 band
  let b := fadd (fmul band (FVal.num (11 / 400000))) (FVal.num (-1 / 5))
  let b := fclip b 0 1
  if nodata then FVal.nan else b

/-- Two-band index `calculate_evi2`:
`2.4 * ((nir - red) / (nir + red + 1))` over HLS-scaled bands. -/
def calculate_evi2 (nirBand redBand : FVal) : FVal :=
  let nir := scale_offset nirBand
  let red := scale_offset redBand
  fmul (FVal.num (12 / 5))
    (fdiv (fsub nir red) (fadd (fadd nir red) (FVal.num 1)))

/-- Three-band index `calculate_evi`:
`2.5 * ((nir - red) / (nir + 6*red - 7.5*blue + 1))` over HLS-scaled
bands. -/
def calculate_evi (nirBand redBand blueBand : FVal) : FVal :=
  let nir := scale_offset nirBand
  let red := scale_offset redBand
  let blue := scale_offset blueBand
  fmul (FVal.num (5 / 2))
    (fdiv (fsub nir red)
      (fadd
        (fsub (fadd nir (fmul (FVal.num 6) red))
          (fmul (FVal.num (15 / 2)) blue))
        (FVal.num 1)))

/-!
Temporal Aggregator and Area Summary.

`resample(time="1MS").max()` / `.median()` reduce each period group
per pixel with NaN-skipping max / median; `mean(["x", "y"])` reduces
a period raster to a scalar with a NaN-skipping mean; anchored-quarter
results are filtered with `sel(time=... .dt.month == anchor)`.
-/

/-- Valid (non-NaN) cells of a group, in order. -/
def valid_cells (l : List FVal) : List FVal :=
  l.filter (fun v => !isnan v)

/-- NaN-skipping maximum of a group (numpy `nanmax` semantics as used
by `resample(...).max()`): NaN if no valid cell. -/
def nanmax (l : List FVal) : FVal :=
  match valid_cells l with
  | [] => FVal.nan
  | x :: xs => xs.foldl (fun a b => if fle a b then b else a) x

/-- Insert into a list sorted by `fle`. -/
def insert_sorted (x : FVal) : List FVal → List FVal
  | [] => [x]
  | y :: ys => if fle x y then x :: y :: ys else y :: insert_sorted x ys

/-- Insertion sort by `fle`. -/
def fsort (l : List FVal) : List FVal :=
  l.foldr insert_sorted []

/-- NaN-skipping median of a group (numpy `nanmedian` semantics as
used by `resample(...).median()`): NaN if no valid cell, middle of the
sorted valid cells if their count is odd, mean of the two middles if
even. -/
def nanmedian (l : List FVal) : FVal :=
  match valid_cells l with
  | [] => FVal.nan
  | v :: vs =>
    let s := fsort (v :: vs)
    let n := s.length
    if n % 2 = 1 then s.getD (n / 2) FVal.nan
    else fdiv (fadd (s.getD (n / 2 - 1) FVal.nan) (s.getD (n / 2) FVal.nan))
      (FVal.num 2)

/-- NaN-skipping mean over all pixels of a period raster
(`mean(["x", "y"])`): sum of the valid cells over their count, NaN if
there is no valid cell. -/
def nanmean (l : List FVal) : FVal :=
  match valid_cells l with
  | [] => FVal.nan
  | v :: vs =>
    fdiv ((v :: vs).foldl fadd (FVal.num 0))
      (FVal.num ((v :: vs).length : ℚ))

/-- Anchored-quarter downstream filter
(`quarters.sel(time=quarters.time.dt.month == anchor)`): keep exactly
the groups whose start month equals the anchor (2 in the `QS-FEB`
notebook, 12 in the `QS-DEC` notebook). -/
def sel_month_eq (anchor : ℕ) (groups : List (ℕ × List FVal)) :
    List (ℕ × List FVal) :=
  groups.filter (fun g => g.1 = anchor)

example : fadd (FVal.num 2) (FVal.num 3) = FVal.num 5 := by
  simp [fadd]
  norm_num

example : fdiv (FVal.num 1) (FVal.num 0) = FVal.inf := by
  simp [fdiv]

example : nanmax [FVal.nan, FVal.num 3, FVal.num 2] = FVal.num 3 := by
  simp [nanmax, valid_cells, isnan, fle]
  norm_num

example : nanmedian [FVal.num 3, FVal.nan] = FVal.num 3 := by
  simp [nanmedian, valid_cells, isnan, fsort, insert_sorted]

/-!
Helper lemmas: IEEE NaN propagation and closed forms of the scaling
and index functions on integer raw inputs.
-/

@[simp]
lemma fadd_nan_left (b : FVal) : fadd FVal.nan b = FVal.nan := by
  cases b <;> rfl

@[simp]
lemma fadd_nan_right (a : FVal) : fadd a FVal.nan = FVal.nan := by
  cases a <;> rfl

@[simp]
lemma fneg_nan : fneg FVal.nan = FVal.nan := rfl

@[simp]
lemma fsub_nan_left (b : FVal) : fsub FVal.nan b = FVal.nan := by
  cases b <;> rfl

@[simp]
lemma fsub_nan_right (a : FVal) : fsub a FVal.nan = FVal.nan := by
  cases a <;> rfl

@[simp]
lemma fmul_nan_left (b : FVal) : fmul FVal.nan b = FVal.nan := by
  cases b <;> rfl

@[simp]
lemma fmul_nan_right (a : FVal) : fmul a FVal.nan = FVal.nan := by
  cases a <;> rfl

@[simp]
lemma fdiv_nan_left (b : FVal) : fdiv FVal.nan b = FVal.nan := by
  cases b <;> rfl

@[simp]
lemma fdiv_nan_right (a : FVal) : fdiv a FVal.nan = FVal.nan := by
  cases a <;> rfl

@[simp]
lemma scale_offset_nan : scale_offset FVal.nan = FVal.nan := rfl

/-- Closed form of the HLS `scale_offset` on an integer raw value:
positive raws scale to `raw / 10000`, the rest become NaN. -/
lemma scale_offset_int (raw : ℤ) :
    scale_offset (FVal.num (raw : ℚ)) =
      if 0 < raw then FVal.num ((raw : ℚ) / 10000) else FVal.nan := by
  have hq : ((raw : ℚ) * (1 / 10000)) = (raw : ℚ) / 10000 := by ring
  have hiff : (0 < (raw : ℚ) / 10000) ↔ 0 < raw := by
    constructor
    · intro h
      have : (0 : ℚ) < (raw : ℚ) := by linarith
      exact_mod_cast this
    · intro h
      have : (0 : ℚ) < (raw : ℚ) := by exact_mod_cast h
      linarith
  unfold scale_offset
  simp only [fmul, hq, fgt0]
  by_cases h : 0 < raw
  · rw [if_pos, if_pos h]
    simpa using hiff.mpr h
  · rw [if_neg, if_neg h]
    simp only [decide_eq_true_eq]
    exact fun hc => h (hiff.mp hc)

/-- Closed form of the Landsat `scale_offset` on an integer raw value:
raw 0 becomes NaN, any other raw becomes
`raw * 0.0000275 - 0.2` clamped into `[0, 1]`. -/
lemma scale_offset_landsat_int (raw : ℤ) :
    scale_offset_landsat (FVal.num (raw : ℚ)) =
      if raw = 0 then FVal.nan
      else FVal.num (min 1 (max 0 ((raw : ℚ) * (11 / 400000) - 1 / 5))) := by
  unfold scale_offset_landsat
  simp only [feq0, fmul, fadd, fclip]
  by_cases h : raw = 0
  · simp [h]
  · have hq : ¬ ((raw : ℚ) = 0) := by exact_mod_cast h
    rw [if_neg h, decide_eq_false hq]
    simp only [Bool.false_eq_true, if_false]
    congr 2
    ring_nf

/-- Closed form of `calculate_evi2` when both raw bands are positive
integers, hence both scaled reflectances valid. -/
lemma calculate_evi2_pos (nr rr : ℤ) (hn : 0 < nr) (hr : 0 < rr) :
    calculate_evi2 (FVal.num (nr : ℚ)) (FVal.num (rr : ℚ)) =
      FVal.num ((12 / 5) *
        (((nr : ℚ) / 10000 - (rr : ℚ) / 10000) /
          ((nr : ℚ) / 10000 + (rr : ℚ) / 10000 + 1))) := by
  have hn0 : (0 : ℚ) < (nr : ℚ) / 10000 := by
    have : (0 : ℚ) < (nr : ℚ) := by exact_mod_cast hn
    linarith
  have hr0 : (0 : ℚ) < (rr : ℚ) / 10000 := by
    have : (0 : ℚ) < (rr : ℚ) := by exact_mod_cast hr
    linarith
  have hd : ¬ ((nr : ℚ) / 10000 + (rr : ℚ) / 10000 + 1 = 0) := by
    intro h
    linarith
  unfold calculate_evi2
  rw [scale_offset_int nr, scale_offset_int rr, if_pos hn, if_pos hr]
  simp only [fsub, fneg, fadd, fdiv, fmul, if_neg hd]
  congr 1
  ring

/-- Either scaled input invalid makes the two-band index NaN. -/
lemma calculate_evi2_nan (n r : FVal)
    (h : n = FVal.nan ∨ r = FVal.nan) : calculate_evi2 n r = FVal.nan := by
  rcases h with h | h <;> subst h <;> simp [calculate_evi2]

/-- Any scaled input invalid makes the three-band index NaN. -/
lemma calculate_evi_nan (n r b : FVal)
    (h : n = FVal.nan ∨ r = FVal.nan ∨ b = FVal.nan) :
    calculate_evi n r b = FVal.nan := by
  rcases h with h | h | h <;> subst h <;> simp [calculate_evi]

/-- The HLS mask raster is the elementwise map of the parameterised
mask element at the source's fixed bitmask 14. -/
lemma hls_mask_map (nodata : ℤ) (fl : List ℤ) :
    hls_mask nodata fl = fl.map (apply_quality_mask_elem 14 nodata) := by
  induction fl with
  | nil => rfl
  | cons c cs ih =>
      simp only [hls_mask, List.map_cons, List.zipWith_cons_cons] at *
      rw [ih]
      rfl

/-- Closed form of `calculate_evi` when all three raw bands are
positive integers: the three-band formula over the scaled bands, with
the division left in `FVal` form since the denominator may vanish. -/
lemma calculate_evi_pos (nr rr br : ℤ) (hn : 0 < nr) (hr : 0 < rr)
    (hb : 0 < br) :
    calculate_evi (FVal.num (nr : ℚ)) (FVal.num (rr : ℚ))
        (FVal.num (br : ℚ)) =
      fmul (FVal.num (5 / 2))
        (fdiv (FVal.num ((nr : ℚ) / 10000 - (rr : ℚ) / 10000))
          (FVal.num ((nr : ℚ) / 10000 + 6 * ((rr : ℚ) / 10000)
            - (15 / 2) * ((br : ℚ) / 10000) + 1))) := by
  unfold calculate_evi
  rw [scale_offset_int nr, scale_offset_int rr, scale_offset_int br,
    if_pos hn, if_pos hr, if_pos hb]
  simp only [fsub, fneg, fadd, fmul]
  ring_nf

/-- Bounds of the scaled two-band ratio: for scaled reflectances in
`(0, 1]` the index lies strictly between `-1.2` and `1.2`. -/
lemma evi2_ratio_bounds (n r : ℚ) (hn0 : 0 < n) (hn1 : n ≤ 1)
    (hr0 : 0 < r) (hr1 : r ≤ 1) :
    -(6 / 5) < (12 / 5) * ((n - r) / (n + r + 1)) ∧
      (12 / 5) * ((n - r) / (n + r + 1)) < 6 / 5 := by
  have hd : (0 : ℚ) < n + r + 1 := by linarith
  have key1 : (n - r) / (n + r + 1) < 1 / 2 := by
    rw [div_lt_iff₀ hd]
    linarith
  have key2 : -(1 / 2) < (n - r) / (n + r + 1) := by
    rw [lt_div_iff₀ hd]
    linarith
  constructor <;> linarith

/-- Sum of a list of finite cells under `fadd`. -/
lemma foldl_fadd_num (qs : List ℚ) (a : ℚ) :
    (qs.map FVal.num).foldl fadd (FVal.num a) = FVal.num (a + qs.sum) := by
  induction qs generalizing a with
  | nil => simp
  | cons q qs ih =>
      simp only [List.map_cons, List.foldl_cons, fadd, List.sum_cons]
      rw [ih]
      congr 1
      ring

/-- Equation lemma: `nanmax` on a group with no valid cell. -/
lemma nanmax_eq_nil (l : List FVal) (h : valid_cells l = []) :
    nanmax l = FVal.nan := by
  unfold nanmax
  rw [h]

/-- Equation lemma: `nanmax` on a group with valid cells. -/
lemma nanmax_eq_cons (l : List FVal) (x : FVal) (xs : List FVal)
    (h : valid_cells l = x :: xs) :
    nanmax l = xs.foldl (fun a b => if fle a b then b else a) x := by
  unfold nanmax
  rw [h]

/-- Equation lemma: `nanmedian` on a group with no valid cell. -/
lemma nanmedian_eq_nil (l : List FVal) (h : valid_cells l = []) :
    nanmedian l = FVal.nan := by
  unfold nanmedian
  rw [h]

/-- Equation lemma: `nanmedian` on a group with one valid cell. -/
lemma nanmedian_eq_singleton (l : List FVal) (v : FVal)
    (h : valid_cells l = [v]) : nanmedian l = v := by
  unfold nanmedian
  rw [h]
  simp [fsort, insert_sorted]

/-- Equation lemma: `nanmean` on a group with no valid cell. -/
lemma nanmean_eq_nil (l : List FVal) (h : valid_cells l = []) :
    nanmean l = FVal.nan := by
  unfold nanmean
  rw [h]

/-- Equation lemma: `nanmean` on a group whose valid cells are the
finite list `qs`. -/
lemma nanmean_eq_finite (l : List FVal) (q : ℚ) (qs : List ℚ)
    (h : valid_cells l = (q :: qs).map FVal.num) :
    nanmean l = FVal.num ((q :: qs).sum / ((q :: qs).length : ℚ)) := by
  unfold nanmean
  rw [h]
  simp only [List.map_cons]
  have hfold := foldl_fadd_num (q :: qs) 0
  simp only [List.map_cons] at hfold
  rw [hfold]
  have hlen : ((FVal.num q :: qs.map FVal.num).length : ℚ) =
      ((q :: qs).length : ℚ) := by
    simp
  rw [hlen]
  have hL : (((q :: qs).length : ℚ)) ≠ 0 := by
    simp only [List.length_cons]
    push_cast
    positivity
  simp only [fdiv, if_neg hL]
  congr 1
  simp

/-- Element lookup through `zipWith`. -/
lemma zipWith_get_some {α β γ : Type} (f : α → β → γ) :
    ∀ (l1 : List α) (l2 : List β) (i : ℕ) (a : α) (b : β),
      l1.get? i = some a → l2.get? i = some b →
      (List.zipWith f l1 l2).get? i = some (f a b) := by
  intro l1
  induction l1 with
  | nil => intro l2 i a b h1 _; simp at h1
  | cons x xs ih =>
      intro l2 i a b h1 h2
      cases l2 with
      | nil => simp at h2
      | cons y ys =>
          cases i with
          | zero =>
              simp only [List.get?] at h1 h2
              cases h1
              cases h2
              rfl
          | succ j =>
              simp only [List.get?] at h1 h2 ⊢
              exact ih ys j a b h1 h2

/-!
Claim theorems.
-/

/-- Claim C1 counterexample: the claim asserts that every quality-mask
element is True iff `(c & b) != 0 or c == s`, for every sentinel `s`,
and cites `mask_landsat_clouds` among its implementations; but
`mask_landsat_clouds` has no sentinel check, so at code 1 (the Landsat
`qa_pixel` fill value, taking sentinel 1) the produced element is
False while the claimed predicate is True. -/
theorem C1_counterexample :
    ¬ (mask_landsat_clouds_elem 1 = true ↔
        (Int.land 1 24 ≠ 0 ∨ (1 : ℤ) = 1)) := by
  decide

/-- Claim C1 amended: the HLS `apply_quality_mask` element is True iff
`(code & bitmask) != 0 or code == sentinel`, for every integer code,
bitmask and sentinel, and its mask raster is that predicate mapped
over every element of the quality band; the Landsat
`mask_landsat_clouds` element is True iff `(code & 0b11000) != 0`
with no sentinel check.  All functions are total, so no integer code
raises. -/
theorem C1_quality_mask_amended :
    (∀ b s c : ℤ,
      apply_quality_mask_elem b s c = true ↔ (Int.land c b ≠ 0 ∨ c = s)) ∧
    (∀ (nodata : ℤ) (fl : List ℤ),
      hls_mask nodata fl = fl.map (apply_quality_mask_elem 14 nodata)) ∧
    (∀ c : ℤ, mask_landsat_clouds_elem c = true ↔ Int.land c 24 ≠ 0) := by
  refine ⟨?_, hls_mask_map, ?_⟩
  · intro b s c
    simp [apply_quality_mask_elem]
  · intro c
    simp [mask_landsat_clouds_elem]

/-- Claim C2 counterexample: at raw nir 10000 and raw red 100 (scaled
reflectances 1.0 and 0.01, both valid and inside the sensor range),
the two-band index is 396/335 > 1, so the output is neither "no
value" nor inside [-1, 1]. -/
theorem C2_counterexample :
    calculate_evi2 (FVal.num ((10000 : ℤ) : ℚ)) (FVal.num ((100 : ℤ) : ℚ)) =
        FVal.num (396 / 335) ∧
      1 < (396 / 335 : ℚ) ∧ FVal.num (396 / 335) ≠ FVal.nan := by
  refine ⟨?_, by norm_num, by simp⟩
  rw [calculate_evi2_pos 10000 100 (by decide) (by decide)]
  norm_num

/-- Claim C2 amended: for raw integer bands in the sensor range 1..10000
(scaled reflectances in (0, 1]) the two-band index is a finite number
strictly inside (-1.2, 1.2) — the bound 1 of the claim does not hold;
the three-band index is not bounded at all: at raw bands
nir 5000, red 2500, blue 3933 it equals 2500/201 > 1. -/
theorem C2_index_bounds_amended :
    (∀ nr rr : ℤ, 0 < nr → nr ≤ 10000 → 0 < rr → rr ≤ 10000 →
      ∃ q : ℚ,
        calculate_evi2 (FVal.num (nr : ℚ)) (FVal.num (rr : ℚ)) =
            FVal.num q ∧
          -(6 / 5) < q ∧ q < 6 / 5) ∧
    (calculate_evi (FVal.num ((5000 : ℤ) : ℚ)) (FVal.num ((2500 : ℤ) : ℚ))
        (FVal.num ((3933 : ℤ) : ℚ)) = FVal.num (2500 / 201) ∧
      1 < (2500 / 201 : ℚ)) := by
  constructor
  · intro nr rr h1 h2 h3 h4
    have hn0 : (0 : ℚ) < (nr : ℚ) / 10000 := by
      have : (0 : ℚ) < (nr : ℚ) := by exact_mod_cast h1
      linarith
    have hn1 : (nr : ℚ) / 10000 ≤ 1 := by
      have : (nr : ℚ) ≤ 10000 := by exact_mod_cast h2
      linarith
    have hr0 : (0 : ℚ) < (rr : ℚ) / 10000 := by
      have : (0 : ℚ) < (rr : ℚ) := by exact_mod_cast h3
      linarith
    have hr1 : (rr : ℚ) / 10000 ≤ 1 := by
      have : (rr : ℚ) ≤ 10000 := by exact_mod_cast h4
      linarith
    exact ⟨_, calculate_evi2_pos nr rr h1 h3,
      (evi2_ratio_bounds _ _ hn0 hn1 hr0 hr1).1,
      (evi2_ratio_bounds _ _ hn0 hn1 hr0 hr1).2⟩
  · constructor
    · rw [calculate_evi_pos 5000 2500 3933 (by decide) (by decide) (by decide)]
      norm_num [fdiv, fmul]
    · norm_num

/-- Claim C2 witness: the amended bound at raw bands nir 3000, red 1000. -/
theorem C2_index_bounds_witness :
    ∃ q : ℚ,
      calculate_evi2 (FVal.num ((3000 : ℤ) : ℚ))
          (FVal.num ((1000 : ℤ) : ℚ)) = FVal.num q ∧
        -(6 / 5) < q ∧ q < 6 / 5 :=
  C2_index_bounds_amended.1 3000 1000 (by decide) (by decide) (by decide)
    (by decide)

/-- Claim C3 counterexample: the Landsat `scale_offset` at raw 1000 has a
negative scaled value (1000 * 0.0000275 - 0.2 < 0), yet yields the
number 0 (clipped), not "no value" — the claim says every scaled
value below the clip becomes "no value" in every sensor variant. -/
theorem C3_counterexample :
    scale_offset_landsat (FVal.num ((1000 : ℤ) : ℚ)) = FVal.num 0 ∧
      ((1000 : ℤ) : ℚ) * (11 / 400000) - 1 / 5 < 0 ∧
      FVal.num 0 ≠ FVal.nan := by
  refine ⟨?_, by norm_num, by simp⟩
  rw [scale_offset_landsat_int 1000, if_neg (by decide)]
  norm_num [max_def, min_def]

/-- Claim C3 amended: the HLS variant scales by 0.0001 with no offset and
sends every scaled value ≤ 0 to "no value"; the Landsat variant sends
raw 0 to "no value" and clamps every other scaled value
`raw * 0.0000275 - 0.2` into [0, 1] (negative results are clipped to
0, not invalidated). -/
theorem C3_scaling_amended :
    (∀ raw : ℤ, scale_offset (FVal.num (raw : ℚ)) =
      if 0 < raw then FVal.num ((raw : ℚ) / 10000) else FVal.nan) ∧
    (∀ raw : ℤ, scale_offset_landsat (FVal.num (raw : ℚ)) =
      if raw = 0 then FVal.nan
      else FVal.num (min 1 (max 0 ((raw : ℚ) * (11 / 400000) - 1 / 5)))) :=
  ⟨scale_offset_int, scale_offset_landsat_int⟩

/-- Claim C4 counterexample: at raw bands nir 5000, red 2500, blue 4000
(all scaled values valid) the three-band denominator
`nir + 6*red - 7.5*blue + 1` is exactly 0 while the numerator is
positive, and the computed index is +infinity, not "no value". -/
theorem C4_counterexample :
    calculate_evi (FVal.num ((5000 : ℤ) : ℚ)) (FVal.num ((2500 : ℤ) : ℚ))
        (FVal.num ((4000 : ℤ) : ℚ)) = FVal.inf ∧
      FVal.inf ≠ FVal.nan ∧
      (5000 : ℚ) / 10000 + 6 * ((2500 : ℚ) / 10000)
        - (15 / 2) * ((4000 : ℚ) / 10000) + 1 = 0 := by
    refine ⟨?_, by simp, by norm_num⟩
    rw [calculate_evi_pos 5000 2500 4000 (by decide) (by decide) (by decide)]
    norm_num [fdiv, fmul]

/-- Claim C4 amended: a "no value" in any input band propagates to a
"no value" index with no error, for both formulas; for the two-band
formula with integer raw bands the result is always "no value" or a
finite number (its denominator is never zero); but a zero three-band
denominator with nonzero numerator yields an infinite value, not
"no value". -/
theorem C4_missing_data_amended :
    (∀ n r b : FVal, (n = FVal.nan ∨ r = FVal.nan ∨ b = FVal.nan) →
      calculate_evi n r b = FVal.nan) ∧
    (∀ n r : FVal, (n = FVal.nan ∨ r = FVal.nan) →
      calculate_evi2 n r = FVal.nan) ∧
    (∀ nr rr : ℤ,
      calculate_evi2 (FVal.num (nr : ℚ)) (FVal.num (rr : ℚ)) = FVal.nan ∨
      ∃ q : ℚ,
        calculate_evi2 (FVal.num (nr : ℚ)) (FVal.num (rr : ℚ)) =
          FVal.num q) := by
  refine ⟨calculate_evi_nan, calculate_evi2_nan, ?_⟩
  intro nr rr
  rcases lt_or_le 0 nr with h1 | h1
  · rcases lt_or_le 0 rr with h2 | h2
    · exact Or.inr ⟨_, calculate_evi2_pos nr rr h1 h2⟩
    · left
      unfold calculate_evi2
      rw [scale_offset_int nr, scale_offset_int rr, if_pos h1,
        if_neg (not_lt.mpr h2)]
      simp
  · left
    unfold calculate_evi2
    rw [scale_offset_int nr, if_neg (not_lt.mpr h1)]
    simp

/-- Claim C4 witness: a NaN nir band propagates to a NaN index. -/
theorem C4_missing_data_witness :
    calculate_evi FVal.nan (FVal.num 1) (FVal.num 2) = FVal.nan :=
  C4_missing_data_amended.1 FVal.nan (FVal.num 1) (FVal.num 2) (Or.inl rfl)

/-- Claim C5: for every period group (per pixel), zero valid observations
yield "no value" (not zero) and exactly one valid observation yields
exactly that observation, for both the max and the median statistic. -/
theorem C5_temporal_aggregator :
    ∀ l : List FVal,
      (valid_cells l = [] → nanmax l = FVal.nan ∧ nanmedian l = FVal.nan) ∧
      (∀ v : FVal, valid_cells l = [v] → nanmax l = v ∧ nanmedian l = v) := by
  intro l
  constructor
  · intro h
    exact ⟨nanmax_eq_nil l h, nanmedian_eq_nil l h⟩
  · intro v h
    constructor
    · rw [nanmax_eq_cons l v [] h]
      rfl
    · exact nanmedian_eq_singleton l v h

/-- Claim C5 witness: an all-NaN group aggregates to NaN, and a group whose
only valid observation is 3 aggregates to 3, for max and median. -/
theorem C5_temporal_aggregator_witness :
    (nanmax [FVal.nan] = FVal.nan ∧ nanmedian [FVal.nan] = FVal.nan) ∧
    (nanmax [FVal.nan, FVal.num 3] = FVal.num 3 ∧
      nanmedian [FVal.nan, FVal.num 3] = FVal.num 3) :=
  ⟨(C5_temporal_aggregator [FVal.nan]).1 rfl,
    (C5_temporal_aggregator [FVal.nan, FVal.num 3]).2 (FVal.num 3) rfl⟩

/-- Claim C6: the anchored-quarter downstream filter retains exactly the
groups whose start month equals the anchor; on 4 consecutive quarter
groups starting in months 2, 5, 8, 11 with anchor 2, exactly one
group survives and its start month is 2. -/
theorem C6_anchored_quarter_filter :
    (∀ (anchor : ℕ) (groups : List (ℕ × List FVal)) (g : ℕ × List FVal),
      g ∈ sel_month_eq anchor groups ↔ g ∈ groups ∧ g.1 = anchor) ∧
    sel_month_eq 2
        [(2, [FVal.num 1]), (5, [FVal.num 2]), (8, [FVal.num 3]),
          (11, [FVal.num 4])] =
      [(2, [FVal.num 1])] := by
  constructor
  · intro anchor groups g
    simp [sel_month_eq, List.mem_filter]
  · rfl

/-- Claim C7: the area summary is the arithmetic mean of the non-"no value"
pixels alone (excluded pixels contribute to neither numerator nor
denominator), a period whose pixels are all "no value" summarizes to
"no value", and a period raster with half the pixels "no value" and
the rest 1.0 summarizes to exactly 1.0. -/
theorem C7_area_summary :
    (∀ l : List FVal, valid_cells l = [] → nanmean l = FVal.nan) ∧
    (∀ (l : List FVal) (q : ℚ) (qs : List ℚ),
      valid_cells l = (q :: qs).map FVal.num →
      nanmean l = FVal.num ((q :: qs).sum / ((q :: qs).length : ℚ))) ∧
    nanmean [FVal.num 1, FVal.nan, FVal.num 1, FVal.nan] = FVal.num 1 := by
  refine ⟨nanmean_eq_nil, nanmean_eq_finite, ?_⟩
  have h := nanmean_eq_finite [FVal.num 1, FVal.nan, FVal.num 1, FVal.nan]
    1 [1] rfl
  rw [h]
  norm_num

/-- Claim C7 witness: the mean formula at a group whose valid cells are
2 and 4. -/
theorem C7_area_summary_witness :
    nanmean [FVal.num 2, FVal.nan, FVal.num 4] =
      FVal.num (((2 : ℚ) + ((4 : ℚ) + 0)) / (((2 : ℕ) : ℚ))) := by
  have h := C7_area_summary.2.1 [FVal.num 2, FVal.nan, FVal.num 4] 2 [4] rfl
  simpa using h

/-- Claim C8: whenever the two raw bands are equal and positive (so both
scaled reflectances are valid and equal), the two-band index is the
number 0 exactly, not "no value". -/
theorem C8_zero_identity (raw : ℤ) (h : 0 < raw) :
    calculate_evi2 (FVal.num (raw : ℚ)) (FVal.num (raw : ℚ)) =
      FVal.num 0 := by
  rw [calculate_evi2_pos raw raw h h]
  norm_num

/-- Claim C8 witness: equal raw bands 3000 give index exactly 0. -/
theorem C8_zero_identity_witness :
    calculate_evi2 (FVal.num ((3000 : ℤ) : ℚ)) (FVal.num ((3000 : ℤ) : ℚ)) =
      FVal.num 0 :=
  C8_zero_identity 3000 (by decide)

/-- Claim C9: `apply_quality_mask` returns every variable of the input —
the quality band `fmask` included, since the `drop_vars` result is
discarded — with the combined mask applied elementwise to every band;
where the mask is False the element is returned unchanged (as the
same number). -/
theorem C9_mask_frame :
    (∀ (nodata : ℤ) (d : List (String × List ℤ)),
      apply_quality_mask nodata d =
          d.map (fun p => (p.1,
            where_not_mask (hls_mask nodata ((d.lookup "fmask").getD []))
              p.2)) ∧
        (apply_quality_mask nodata d).map Prod.fst = d.map Prod.fst) ∧
    (∀ (mask : List Bool) (band : List ℤ) (i : ℕ) (x : ℤ),
      mask.get? i = some false → band.get? i = some x →
      (where_not_mask mask band).get? i = some (FVal.num (x : ℚ))) := by
  constructor
  · intro nodata d
    constructor
    · rfl
    · simp [apply_quality_mask]
  · intro mask band i x h1 h2
    have h := zipWith_get_some
      (fun m x => if m then FVal.nan else FVal.num ((x : ℤ) : ℚ))
      mask band i false x h1 h2
    simpa [where_not_mask] using h

/-- Claim C9 witness: a one-element unmasked band passes through unchanged. -/
theorem C9_mask_frame_witness :
    (where_not_mask [false] [7]).get? 0 = some (FVal.num ((7 : ℤ) : ℚ)) :=
  C9_mask_frame.2 [false] [7] 0 7 rfl rfl

/-- Claim C10: the Landsat `scale_offset` treats raw 0 as nodata (NaN) and
clamps every other raw value's `raw * 0.0000275 - 0.2` into [0, 1];
in particular a nonzero raw whose scaled value is negative
(`raw * 11 < 80000`) yields the number 0, not "no value". -/
theorem C10_landsat_scale :
    (∀ raw : ℤ, scale_offset_landsat (FVal.num (raw : ℚ)) =
      if raw = 0 then FVal.nan
      else FVal.num (min 1 (max 0 ((raw : ℚ) * (11 / 400000) - 1 / 5)))) ∧
    (∀ raw : ℤ, raw ≠ 0 → raw * 11 < 80000 →
      scale_offset_landsat (FVal.num (raw : ℚ)) = FVal.num 0) := by
  refine ⟨scale_offset_landsat_int, ?_⟩
  intro raw h hneg
  rw [scale_offset_landsat_int raw, if_neg h]
  have hc : ((raw : ℚ)) * 11 < 80000 := by exact_mod_cast hneg
  have hx : (raw : ℚ) * (11 / 400000) - 1 / 5 ≤ 0 := by linarith
  rw [max_eq_left hx]
  norm_num

/-- Claim C10 witness: raw 1000 is nonzero with a negative scaled value and
yields the number 0. -/
theorem C10_landsat_scale_witness :
    scale_offset_landsat (FVal.num ((1000 : ℤ) : ℚ)) = FVal.num 0 :=
  C10_landsat_scale.2 1000 (by decide) (by decide)
